import Mathlib

/-!
Verification of the Readme-AI generator (`main.py`) against its specification.

The program is a single synchronous exchange: build a prompt from a project
description, POST it to a fixed endpoint, and print the returned text or an
error string.  The embedding below translates `main.py` line by line:

* `Json` models the values Python's `json` module produces from a response
  body (`response.json()`.)
* `Json.getKey` / `Json.getIndex` model Python subscription `v[k]` / `v[i]`
  together with the exceptions CPython raises (`KeyError`, `IndexError`,
  `TypeError`).  A `TypeError` (subscripting a non-container) is *not* in the
  `except (KeyError, IndexError)` tuple of line 72 and therefore propagates.
* `tryBlock` is the body of the `try:` at lines 61-68; `get_readme_from_llm`
  adds the two `except` handlers of lines 70-73.
* The network is an oracle `net : HttpRequest → NetOutcome`: the single
  `requests.post` call of line 62 consumes it at exactly the request the code
  builds.  `NetOutcome.requestExc` is a `requests.exceptions.RequestException`
  raised by the library itself (connection refused, DNS, TLS, ...), carrying
  its message; `NetOutcome.response` is a completed exchange with a status
  code and a JSON-parseable body.
* `main` models lines 75-98: environment lookup of `API_KEY`, the two prints
  and the exit code.  `stdout` records the values passed to `print` in order
  (Python's `print` applies `str`, the identity on the strings involved);
  an uncaught exception aborts the process and is modelled as `Except.error`.
-/

set_option maxRecDepth 100000

namespace ReadmeAI

/-- A JSON value as produced by Python's `json` module from a response body.
Object keys are unique (the parser keeps the last duplicate), so association
lists with first-match lookup are a faithful model.  Numbers play no role in
any lookup path and are modelled as integers. -/
inductive Json where
  | null : Json
  | bool : Bool → Json
  | num : Int → Json
  | str : String → Json
  | arr : List Json → Json
  | obj : List (String × Json) → Json

/-- The Python exceptions relevant to `get_readme_from_llm`, each carrying its
`str(e)` text.  `requestException` covers `requests.exceptions.RequestException`
and its subclass `HTTPError` raised by `raise_for_status` (line 63). -/
inductive PyExc where
  | keyError : String → PyExc
  | indexError : String → PyExc
  | typeError : String → PyExc
  | requestException : String → PyExc
deriving DecidableEq

/-- Python subscription `v[k]` with a string key `k`, on a value parsed from
JSON: a dict lookup succeeds or raises `KeyError` (whose `str` is the repr of
the key); every non-dict raises `TypeError` with CPython's message. -/
def Json.getKey : Json → String → Except PyExc Json
  | Json.obj kvs, k =>
      match kvs.lookup k with
      | some v => Except.ok v
      | none => Except.error (PyExc.keyError ("'" ++ k ++ "'"))
  | Json.arr _, _ =>
      Except.error (PyExc.typeError "list indices must be integers or slices, not str")
  | Json.str _, _ =>
      Except.error (PyExc.typeError "string indices must be integers")
  | Json.null, _ =>
      Except.error (PyExc.typeError "'NoneType' object is not subscriptable")
  | Json.bool _, _ =>
      Except.error (PyExc.typeError "'bool' object is not subscriptable")
  | Json.num _, _ =>
      Except.error (PyExc.typeError "'int' object is not subscriptable")

/-- Python subscription `v[i]` with a non-negative integer `i`, on a value
parsed from JSON: list and string indexing succeed or raise `IndexError`; a
dict parsed from JSON has only string keys, so an integer subscript raises
`KeyError`; the remaining values raise `TypeError`. -/
def Json.getIndex : Json → Nat → Except PyExc Json
  | Json.arr xs, i =>
      match xs.get? i with
      | some v => Except.ok v
      | none => Except.error (PyExc.indexError "list index out of range")
  | Json.str s, i =>
      match s.data.get? i with
      | some c => Except.ok (Json.str (String.mk [c]))
      | none => Except.error (PyExc.indexError "string index out of range")
  | Json.obj _, i => Except.error (PyExc.keyError (toString i))
  | Json.null, _ =>
      Except.error (PyExc.typeError "'NoneType' object is not subscriptable")
  | Json.bool _, _ =>
      Except.error (PyExc.typeError "'bool' object is not subscriptable")
  | Json.num _, _ =>
      Except.error (PyExc.typeError "'int' object is not subscriptable")

/-- Line 67: `response_json['candidates'][0]['content']['parts'][0]['text']`. -/
def extractText (response_json : Json) : Except PyExc Json := do
  let candidates ← response_json.getKey "candidates"
  let c0 ← candidates.getIndex 0
  let content ← c0.getKey "content"
  let parts ← content.getKey "parts"
  let p0 ← parts.getIndex 0
  p0.getKey "text"

/-- Line 26: the fixed endpoint URL. -/
def API_URL : String :=
  "https://generativelanguage.googleapis.com/v1beta/models/gemini-2.5-flash-preview-05-20:generateContent"

/-- The f-string of lines 29-42 up to the interpolated `{project_description}`,
byte for byte (four-space indentation and the trailing blank-indented line of
the template included). -/
def promptHead : String :=
  "\n    You are a professional GitHub project assistant. Your task is to generate a comprehensive and well-structured README.md file\n    for a new software project. The README should be written in Markdown format and include the following sections:\n    1.  A clear and catchy title.\n    2.  A brief but engaging description.\n    3.  A \"Features\" section using a bulleted list.\n    4.  A \"Getting Started\" section with instructions for installation and usage.\n    5.  A \"Contributing\" section.\n    6.  A \"License\" section.\n\n    Based on the following project description, please generate the README content.\n    \n    Project Description: \""

/-- The rest of the f-string of lines 29-42, after the interpolation. -/
def promptTail : String := "\"\n    "

/-- Lines 29-42: the rendered prompt, with `project_description` interpolated
verbatim (no escaping, no sanitization). -/
def prompt (project_description : String) : String :=
  promptHead ++ project_description ++ promptTail

/-- Lines 44-47: the request headers. -/
def requestHeaders (api_key : String) : List (String × String) :=
  [("Content-Type", "application/json"), ("x-goog-api-key", api_key)]

/-- Lines 49-59: the JSON request body around a prompt `p`. -/
def payload (p : String) : Json :=
  Json.obj [("contents", Json.arr [Json.obj [("parts",
    Json.arr [Json.obj [("text", Json.str p)]])]])]

/-- The single outbound HTTP request. -/
structure HttpRequest where
  method : String
  url : String
  headers : List (String × String)
  body : Json

/-- Line 62: the request `requests.post` sends, with the credential both in
the `x-goog-api-key` header and in the `key` query parameter of the URL. -/
def request (project_description api_key : String) : HttpRequest :=
  { method := "POST"
    url := API_URL ++ "?key=" ++ api_key
    headers := requestHeaders api_key
    body := payload (prompt project_description) }

/-- Outcome of the one `requests.post` call of line 62: either the requests
library raises a `RequestException` (connection failure and the like) carrying
its message, or an HTTP exchange completes with a status code and a
JSON-parseable body. -/
inductive NetOutcome where
  | requestExc : String → NetOutcome
  | response : Nat → Json → NetOutcome

/-- The `str` of the `HTTPError` that `raise_for_status` (line 63) raises on a
4xx/5xx status.  CPython's text also names the reason phrase and the URL,
which the model does not carry; only the fact that some detail string is
appended after the handler's prefix matters to any claim below. -/
def httpErrorDetail (status : Nat) : String :=
  toString status ++ " Error for url: " ++ API_URL

/-- Lines 61-68, the body of the `try:` block, given the outcome of the post:
a library exception is in flight as a `RequestException`; `raise_for_status`
turns a 4xx/5xx status into an in-flight `RequestException` as well; otherwise
the body is parsed and the text extracted (which may itself raise). -/
def tryBlock (outcome : NetOutcome) : Except PyExc Json :=
  match outcome with
  | NetOutcome.requestExc detail => Except.error (PyExc.requestException detail)
  | NetOutcome.response status body =>
      if 400 ≤ status ∧ status < 600 then
        Except.error (PyExc.requestException (httpErrorDetail status))
      else
        extractText body

/-- Lines 11-73: `get_readme_from_llm`.  The `except RequestException` handler
(lines 70-71) and the `except (KeyError, IndexError)` handler (lines 72-73)
turn those exceptions into returned strings; a `TypeError` matches neither
handler and propagates out of the function. -/
def get_readme_from_llm (project_description api_key : String)
    (net : HttpRequest → NetOutcome) : Except PyExc Json :=
  match tryBlock (net (request project_description api_key)) with
  | Except.ok v => Except.ok v
  | Except.error (PyExc.requestException e) =>
      Except.ok (Json.str ("Error connecting to the API: " ++ e))
  | Except.error (PyExc.keyError e) =>
      Except.ok (Json.str ("Error parsing API response: The response structure is invalid. " ++ e))
  | Except.error (PyExc.indexError e) =>
      Except.ok (Json.str ("Error parsing API response: The response structure is invalid. " ++ e))
  | Except.error (PyExc.typeError e) => Except.error (PyExc.typeError e)

/-- What a completed process run did: the values passed to `print` in order,
the exit code, and how many network calls were made. -/
structure ProcResult where
  stdout : List Json
  exitCode : Nat
  netCalls : Nat

/-- Line 93: the missing-credential message. -/
def apiKeyErrorMsg : String :=
  "Error: API key not found. Please set the 'API_KEY' environment variable."

/-- Lines 75-98: `main`, given the parsed positional `description`, the value
of the `API_KEY` environment variable (`none` when unset) and the network
oracle.  `if not api_key:` treats both `None` and the empty string as missing.
An uncaught exception from `get_readme_from_llm` aborts the process
(`Except.error`); otherwise the run completes with exit code 0 or 1. -/
def main (description : String) (api_key : Option String)
    (net : HttpRequest → NetOutcome) : Except PyExc ProcResult :=
  match api_key with
  | none =>
      Except.ok { stdout := [Json.str apiKeyErrorMsg], exitCode := 1, netCalls := 0 }
  | some k =>
      if k = "" then
        Except.ok { stdout := [Json.str apiKeyErrorMsg], exitCode := 1, netCalls := 0 }
      else
        match get_readme_from_llm description k net with
        | Except.ok v =>
            Except.ok { stdout := [Json.str "Generating README.md...", v],
                        exitCode := 0, netCalls := 1 }
        | Except.error e => Except.error e

/-- The mocked success body
`\x7b"candidates":[\x7b"content":\x7b"parts":[\x7b"text": t\x7d]\x7d\x7d]\x7d`. -/
def successBody (t : String) : Json :=
  Json.obj [("candidates", Json.arr [Json.obj [("content",
    Json.obj [("parts", Json.arr [Json.obj [("text", Json.str t)]])])]])]

/-- `needle` occurs in `hay` as a contiguous substring. -/
def strContains (hay needle : String) : Prop :=
  needle.data <:+: hay.data

instance (hay needle : String) : Decidable (strContains hay needle) :=
  List.decidableInfix needle.data hay.data

/-- `promptHead` occurs at the front of every rendered prompt, so anything
contained in it is contained in the prompt for every description. -/
theorem strContains_of_head (d s : String) (h : strContains promptHead s) :
    strContains (prompt d) s := by
  refine h.trans ⟨[], d.data ++ promptTail.data, ?_⟩
  simp [prompt, String.data_append, List.append_assoc]

/-- C1: a 2xx response whose JSON body is
`\x7b"candidates":[\x7b"content":\x7b"parts":[\x7b"text": t\x7d]\x7d\x7d]\x7d`
makes `get_readme_from_llm` return exactly `t`, unchanged, for every string
`t`, every description and every credential. -/
theorem success_returns_text_unchanged (project_description api_key t : String)
    (status : Nat) (h2 : 200 ≤ status) (h3 : status < 300) :
    get_readme_from_llm project_description api_key
        (fun _ => NetOutcome.response status (successBody t)) =
      Except.ok (Json.str t) := by
  have hns : ¬(400 ≤ status ∧ status < 600) := by omega
  simp only [get_readme_from_llm, tryBlock]
  rw [if_neg hns]
  rfl

/-- C1 witness: at status 200 and text `# Hello`. -/
theorem success_returns_text_unchanged_witness :
    200 ≤ 200 ∧ 200 < 300 ∧
    get_readme_from_llm "A CLI tool" "secret"
        (fun _ => NetOutcome.response 200 (successBody "# Hello")) =
      Except.ok (Json.str "# Hello") :=
  ⟨le_refl 200, by omega,
    success_returns_text_unchanged "A CLI tool" "secret" "# Hello" 200 (le_refl 200) (by omega)⟩

/-- C2 as stated is false: the HTTP-200 body
`\x7b"candidates": [0]\x7d` deviates from the expected shape (no `content`
key is reachable), yet `get_readme_from_llm` does not return an error string:
subscripting the integer `0` raises a `TypeError`, which the
`except (KeyError, IndexError)` handler does not match, so the exception
propagates out of the component. -/
theorem parse_error_swallowed_counterexample :
    get_readme_from_llm "a project" "key"
        (fun _ => NetOutcome.response 200
          (Json.obj [("candidates", Json.arr [Json.num 0])])) =
      Except.error (PyExc.typeError "'int' object is not subscriptable") := rfl

/-- C2 amended: an HTTP-200 (more generally non-4xx/5xx) response whose body
makes the extraction of `candidates[0].content.parts[0].text` raise a
`KeyError` or an `IndexError` (a missing key where a dict sits, an
out-of-range index where a list or string sits) yields the formatted
parse-error string, and the exception does not propagate; shapes that
subscript a non-container value raise a `TypeError` instead, which
propagates. -/
theorem key_or_index_error_yields_parse_string (project_description api_key e : String)
    (status : Nat) (body : Json)
    (hs : ¬(400 ≤ status ∧ status < 600))
    (h : extractText body = Except.error (PyExc.keyError e) ∨
         extractText body = Except.error (PyExc.indexError e)) :
    get_readme_from_llm project_description api_key
        (fun _ => NetOutcome.response status body) =
      Except.ok (Json.str
        ("Error parsing API response: The response structure is invalid. " ++ e)) := by
  simp only [get_readme_from_llm, tryBlock]
  rw [if_neg hs]
  rcases h with h | h <;> rw [h]

/-- C2 witness: the body `\x7b"other": null\x7d` raises
`KeyError('candidates')` and the parse-error string comes back. -/
theorem key_or_index_error_yields_parse_string_witness :
    ¬(400 ≤ 200 ∧ 200 < 600) ∧
    (extractText (Json.obj [("other", Json.null)]) =
        Except.error (PyExc.keyError "'candidates'") ∨
      extractText (Json.obj [("other", Json.null)]) =
        Except.error (PyExc.indexError "'candidates'")) ∧
    get_readme_from_llm "a project" "key"
        (fun _ => NetOutcome.response 200 (Json.obj [("other", Json.null)])) =
      Except.ok (Json.str
        ("Error parsing API response: The response structure is invalid. " ++ "'candidates'")) :=
  ⟨by omega, Or.inl rfl,
    key_or_index_error_yields_parse_string "a project" "key" "'candidates'" 200
      (Json.obj [("other", Json.null)]) (by omega) (Or.inl rfl)⟩

/-- C3: every 4xx or 5xx status is turned by `raise_for_status` into an
in-flight `RequestException` -- the same exception class, hence the same
handler, as a connection-level failure -- and `get_readme_from_llm` returns a
string starting with `Error connecting to the API:` instead of raising. -/
theorem http_error_status_yields_connection_error (project_description api_key : String)
    (status : Nat) (body : Json) (h4 : 400 ≤ status) (h6 : status < 600) :
    tryBlock (NetOutcome.response status body) =
      Except.error (PyExc.requestException (httpErrorDetail status)) ∧
    ∃ rest, get_readme_from_llm project_description api_key
        (fun _ => NetOutcome.response status body) =
      Except.ok (Json.str ("Error connecting to the API:" ++ rest)) := by
  have hs : 400 ≤ status ∧ status < 600 := ⟨h4, h6⟩
  have hb : tryBlock (NetOutcome.response status body) =
      Except.error (PyExc.requestException (httpErrorDetail status)) := by
    simp only [tryBlock]
    rw [if_pos hs]
  refine ⟨hb, " " ++ httpErrorDetail status, ?_⟩
  simp only [get_readme_from_llm]
  rw [hb, ← String.append_assoc]
  rfl

/-- C3 witness: at status 500. -/
theorem http_error_status_yields_connection_error_witness :
    400 ≤ 500 ∧ 500 < 600 ∧
    ∃ rest, get_readme_from_llm "a project" "key"
        (fun _ => NetOutcome.response 500 (Json.obj [])) =
      Except.ok (Json.str ("Error connecting to the API:" ++ rest)) :=
  ⟨by omega, by omega,
    (http_error_status_yields_connection_error "a project" "key" 500
      (Json.obj []) (by omega) (by omega)).2⟩

/-- C4: an HTTP-200 response with body `\x7b\x7d` (no `candidates` key) makes
`get_readme_from_llm` return the parse-error string, whose text starts with
`Error parsing API response:` (the full prefix being
`Error parsing API response: The response structure is invalid.`). -/
theorem empty_object_body_yields_parse_error (project_description api_key : String) :
    get_readme_from_llm project_description api_key
        (fun _ => NetOutcome.response 200 (Json.obj [])) =
      Except.ok (Json.str
        ("Error parsing API response: The response structure is invalid. " ++ "'candidates'")) ∧
    ∃ rest,
      ("Error parsing API response: The response structure is invalid. " ++ "'candidates'" : String) =
        "Error parsing API response:" ++ rest :=
  ⟨rfl, " The response structure is invalid. 'candidates'", rfl⟩

/-- C5: with `API_KEY` unset or empty, the process prints exactly the
missing-credential message, exits with status 1, and performs zero network
calls. -/
theorem missing_api_key_fails_fast (description : String) (net : HttpRequest → NetOutcome) :
    main description none net =
      Except.ok { stdout := [Json.str apiKeyErrorMsg], exitCode := 1, netCalls := 0 } ∧
    main description (some "") net =
      Except.ok { stdout := [Json.str apiKeyErrorMsg], exitCode := 1, netCalls := 0 } ∧
    apiKeyErrorMsg =
      "Error: API key not found. Please set the 'API_KEY' environment variable." :=
  ⟨rfl, rfl, rfl⟩

/-- C6 as stated is false: with a description, a non-empty `API_KEY` and the
HTTP-200 body `\x7b"candidates": null\x7d`, the extraction subscripts `None`,
raising a `TypeError` that no handler catches; the process aborts with a
traceback instead of printing the generate result and exiting 0. -/
theorem always_exit_zero_counterexample :
    main "a project" (some "key")
        (fun _ => NetOutcome.response 200 (Json.obj [("candidates", Json.null)])) =
      Except.error (PyExc.typeError "'NoneType' object is not subscriptable") := rfl

/-- C6 amended: with a description and a non-empty `API_KEY`, whenever
`get_readme_from_llm` returns a value (the generated text or an error string
-- every case except an uncaught `TypeError` from a type-mismatched response
shape), the process prints `Generating README.md...` followed by that value
and exits with status 0, having made the one network call. -/
theorem generate_ok_prints_and_exits_zero (description k : String)
    (net : HttpRequest → NetOutcome) (v : Json)
    (hk : ¬k = "") (hv : get_readme_from_llm description k net = Except.ok v) :
    main description (some k) net =
      Except.ok { stdout := [Json.str "Generating README.md...", v],
                  exitCode := 0, netCalls := 1 } := by
  simp only [main]
  rw [if_neg hk, hv]

/-- C6 witness: a successful generation prints the text and exits 0. -/
theorem generate_ok_prints_and_exits_zero_witness :
    ¬("key" : String) = "" ∧
    get_readme_from_llm "a project" "key"
        (fun _ => NetOutcome.response 200 (successBody "# Hello")) =
      Except.ok (Json.str "# Hello") ∧
    main "a project" (some "key")
        (fun _ => NetOutcome.response 200 (successBody "# Hello")) =
      Except.ok { stdout := [Json.str "Generating README.md...", Json.str "# Hello"],
                  exitCode := 0, netCalls := 1 } :=
  ⟨by decide, rfl,
    generate_ok_prints_and_exits_zero "a project" "key"
      (fun _ => NetOutcome.response 200 (successBody "# Hello")) (Json.str "# Hello")
      (by decide) rfl⟩

/-- C7: for every non-empty description, the rendered prompt contains the
description verbatim as a contiguous substring (no escaping, no
sanitization), and contains the instructional text for all six required
sections: title, engaging description, Features, Getting Started,
Contributing, License. -/
theorem prompt_contains_description_and_sections (d : String) (_hd : d ≠ "") :
    strContains (prompt d) d ∧
    strContains (prompt d) "1.  A clear and catchy title." ∧
    strContains (prompt d) "2.  A brief but engaging description." ∧
    strContains (prompt d) "3.  A \"Features\" section using a bulleted list." ∧
    strContains (prompt d) "4.  A \"Getting Started\" section with instructions for installation and usage." ∧
    strContains (prompt d) "5.  A \"Contributing\" section." ∧
    strContains (prompt d) "6.  A \"License\" section." := by
  refine ⟨⟨promptHead.data, promptTail.data, ?_⟩,
    strContains_of_head d _ (by decide), strContains_of_head d _ (by decide),
    strContains_of_head d _ (by decide), strContains_of_head d _ (by decide),
    strContains_of_head d _ (by decide), strContains_of_head d _ (by decide)⟩
  simp [prompt, String.data_append, List.append_assoc]

/-- C7 witness: at the description `My project`. -/
theorem prompt_contains_description_and_sections_witness :
    ("My project" : String) ≠ "" ∧ strContains (prompt "My project") "My project" :=
  ⟨by decide, (prompt_contains_description_and_sections "My project" (by decide)).1⟩

/-- C8: the single outbound request is a POST to the fixed URL with the
credential appended as the `key` query parameter, carries the
`Content-Type: application/json` and `x-goog-api-key` headers, and its JSON
body is exactly
`\x7b"contents": [\x7b"parts": [\x7b"text": <rendered prompt>\x7d]\x7d]\x7d`. -/
theorem request_is_post_with_key_and_payload (d k : String) :
    (request d k).method = "POST" ∧
    (request d k).url = API_URL ++ "?key=" ++ k ∧
    (request d k).headers = [("Content-Type", "application/json"), ("x-goog-api-key", k)] ∧
    (request d k).body = Json.obj [("contents", Json.arr [Json.obj [("parts",
      Json.arr [Json.obj [("text", Json.str (prompt d))]])]])] :=
  ⟨rfl, rfl, rfl, rfl⟩

/-- C9: `get_readme_from_llm` is deterministic in its two inputs plus the
network exchange: two runs with the same description, the same credential and
the same remote response return the identical string; the embedding reads no
other state. -/
theorem generate_deterministic (d₁ d₂ k₁ k₂ : String)
    (net₁ net₂ : HttpRequest → NetOutcome)
    (hd : d₁ = d₂) (hk : k₁ = k₂)
    (hresp : net₁ (request d₁ k₁) = net₂ (request d₂ k₂)) :
    get_readme_from_llm d₁ k₁ net₁ = get_readme_from_llm d₂ k₂ net₂ := by
  subst hd; subst hk
  simp only [get_readme_from_llm]
  rw [hresp]

/-- C9 witness: two runs against the same mocked exchange. -/
theorem generate_deterministic_witness :
    get_readme_from_llm "a project" "key"
        (fun _ => NetOutcome.response 200 (successBody "ok")) =
      get_readme_from_llm "a project" "key"
        (fun _ => NetOutcome.response 200 (successBody "ok")) :=
  generate_deterministic "a project" "a project" "key" "key"
    (fun _ => NetOutcome.response 200 (successBody "ok"))
    (fun _ => NetOutcome.response 200 (successBody "ok")) rfl rfl rfl

/-- C10: the non-empty-description precondition is never enforced: the empty
description is interpolated like any other, the prompt then contains the
literal text `Project Description: ""`, the request is built and issued the
same way, and no distinct validation or error path exists -- the same
exchange yields the same result as for any other description. -/
theorem empty_description_not_special (k d₂ k₂ : String)
    (net net₂ : HttpRequest → NetOutcome)
    (hresp : net (request "" k) = net₂ (request d₂ k₂)) :
    strContains (prompt "") "Project Description: \"\"" ∧
    request "" k = { method := "POST", url := API_URL ++ "?key=" ++ k,
                     headers := requestHeaders k, body := payload (prompt "") } ∧
    get_readme_from_llm "" k net = get_readme_from_llm d₂ k₂ net₂ := by
  refine ⟨by decide, rfl, ?_⟩
  simp only [get_readme_from_llm]
  rw [hresp]

/-- C10 witness: the empty description against the same mocked exchange as
the description `x`. -/
theorem empty_description_not_special_witness :
    (fun (_ : HttpRequest) => NetOutcome.response 200 (successBody "ok")) (request "" "key") =
      (fun (_ : HttpRequest) => NetOutcome.response 200 (successBody "ok")) (request "x" "key") ∧
    get_readme_from_llm "" "key" (fun _ => NetOutcome.response 200 (successBody "ok")) =
      get_readme_from_llm "x" "key" (fun _ => NetOutcome.response 200 (successBody "ok")) :=
  ⟨rfl, (empty_description_not_special "key" "x" "key"
    (fun _ => NetOutcome.response 200 (successBody "ok"))
    (fun _ => NetOutcome.response 200 (successBody "ok")) rfl).2.2⟩

end ReadmeAI
